import Mathlib

/-!
Verification of the chart-rendering layer of the page-builder library
(src/page-builder.js) against its natural-language specification.

The JavaScript source is shallowly embedded: numeric values are modelled
as rationals, JS array indexing (which yields `undefined` out of range)
is modelled with `List.getD` / `List.get?`, and the stateful parts
(builder counters, the document body) are modelled as explicit state
passing.  Each definition below is translated from the function of the
same name in the source file.
-/

/-! ## Multi-scale normalization (createMultiScaleBarChart, lines 1532-1565) -/

/-- A dataset as passed to `createMultiScaleBarChart`: a series label, the
numeric data, and an optional caller-supplied background color. -/
structure Dataset where
  label : String
  data : List ℚ
  backgroundColor : Option String
deriving DecidableEq, Repr

/-- A normalized dataset as produced by the normalization loop of
`createMultiScaleBarChart`: the spread of the input dataset with `data`
replaced by the normalized values, the original values retained in
`originalData`, and a background color filled in from the palette when
the caller supplied none. -/
structure NormalizedDataset where
  label : String
  data : List ℚ
  originalData : List ℚ
  backgroundColor : String
deriving DecidableEq, Repr

/-- The fixed ordered 15-color palette `CHART_COLORS.palette`. -/
def CHART_COLORS_palette : List String :=
  ["#3498db", "#2ecc71", "#f39c12", "#e74c3c", "#9b59b6",
   "#1abc9c", "#34495e", "#f1c40f", "#e67e22", "#95a5a6",
   "#2980b9", "#27ae60", "#d35400", "#c0392b", "#8e44ad"]

/-- `CHART_COLORS.gender.male`. -/
def CHART_COLORS_gender_male : String := "#4a90e2"

/-- `CHART_COLORS.gender.female`. -/
def CHART_COLORS_gender_female : String := "#50e3c2"

/-- `getColors(count, type)`: in gender mode the two fixed colors, else the
palette cycled modulo its length (source lines 997-1006). -/
def getColors (count : Nat) (type : String) : List String :=
  if type == "gender" then
    [CHART_COLORS_gender_male, CHART_COLORS_gender_female]
  else
    (List.range count).map (fun i =>
      CHART_COLORS_palette.getD (i % CHART_COLORS_palette.length) "")

/-- `Math.min(...values)` on a nonempty list (the empty case, which JS maps
to Infinity, is never reached: the normalization loop only runs over
nonempty dataset collections). -/
def jsMathMin : List ℚ → ℚ
  | [] => 0
  | x :: xs => xs.foldl min x

/-- `Math.max(...values)` on a nonempty list. -/
def jsMathMax : List ℚ → ℚ
  | [] => 0
  | x :: xs => xs.foldl max x

/-- The body of the `datasets.map` in `createMultiScaleBarChart`
(source lines 1533-1565): per position i, take the values of all
datasets at i, branch on the sign regime of their min/max, and push the
normalized value; keep the original data and resolve the background
color. -/
def normalizeOne (datasets : List Dataset) (datasetIndex : Nat)
    (dataset : Dataset) : NormalizedDataset :=
  let originalData := dataset.data
  let normalizedData := (List.range originalData.length).map (fun i =>
    let valuesForThisVariable := datasets.map (fun ds => ds.data.getD i 0)
    let mn := jsMathMin valuesForThisVariable
    let mx := jsMathMax valuesForThisVariable
    if mn = mx then
      50
    else if 0 ≤ mn then
      originalData.getD i 0 / mx * 100
    else if mx ≤ 0 then
      originalData.getD i 0 / |mn| * 100
    else
      let maxAbs := max |mn| |mx|
      originalData.getD i 0 / maxAbs * 50 + 50)
  { label := dataset.label
    data := normalizedData
    originalData := originalData
    backgroundColor := dataset.backgroundColor.getD
      (CHART_COLORS_palette.getD
        (datasetIndex % CHART_COLORS_palette.length) "") }

/-- Index-carrying map, the embedding of the JS `array.map((x, i) => ...)`
combinator. -/
def mapIdxFrom (f : Nat → α → β) : Nat → List α → List β
  | _, [] => []
  | idx, x :: xs => f idx x :: mapIdxFrom f (idx + 1) xs

/-- `const normalizedDatasets = datasets.map((dataset, datasetIndex) => ...)`
of `createMultiScaleBarChart`. -/
def normalizeDatasets (datasets : List Dataset) : List NormalizedDataset :=
  mapIdxFrom (normalizeOne datasets) 0 datasets

/-- The per-column normalized value as the specification words it: with min
and max taken over the values at position i across all series, 50 when
they coincide, value / max * 100 when min is nonnegative, value / abs min
* 100 when max is nonpositive, and value / max(abs min, abs max) * 50 + 50
in the mixed-sign case.  Written from the spec text, to be compared with
the pipeline above. -/
def specNormalizedValue (column : List ℚ) (v : ℚ) : ℚ :=
  let mn := jsMathMin column
  let mx := jsMathMax column
  if mn = mx then 50
  else if 0 ≤ mn then v / mx * 100
  else if mx ≤ 0 then v / |mn| * 100
  else v / max |mn| |mx| * 50 + 50

/-- Placeholder dataset used as the default of total list indexing. -/
def dummyDataset : Dataset := { label := "", data := [], backgroundColor := none }

/-- Placeholder normalized dataset used as the default of total list
indexing. -/
def dummyNormalized : NormalizedDataset :=
  { label := "", data := [], originalData := [], backgroundColor := "" }

/-! ## Pie chart slice labels (createPieChart, lines 1434-1515) -/

/-- JS `Number.prototype.toFixed(1)`: the nearest multiple of one tenth,
ties resolved toward the larger numerator, rendered with one decimal
digit. -/
def toFixed1 (q : ℚ) : String :=
  let n : ℤ := ⌊q * 10 + 1 / 2⌋
  (if n < 0 then "-" else "") ++
    toString (n.natAbs / 10) ++ "." ++ toString (n.natAbs % 10)

/-- The slice-label text function of createPieChart (line 1485):
`d.data.value > 5 ? d.data.value.toFixed(1) + "%" : ""`. -/
def pieSliceLabel (value : ℚ) : String :=
  if 5 < value then toFixed1 value ++ "%" else ""

/-- The texts attached to the pie arcs, one per slice value. -/
def pieSliceLabels (data : List ℚ) : List String :=
  data.map pieSliceLabel

/-! ## Data table input shapes (createDataTable, lines 1874-2009) -/

/-- A JavaScript value as it flows through createDataTable: strings,
numbers, arrays, plain records carrying the fields the table reader
consults, and undefined. -/
inductive JSVal where
  | str (s : String)
  | num (q : ℚ)
  | arr (cells : List JSVal)
  | obj (label name key value : Option JSVal)
  | undefVal

/-- JS truthiness of the values above, as used by the record branch
`item.label || item.name || item.key`. -/
def JSVal.truthy : JSVal → Bool
  | .str s => !(s == "")
  | .num q => !(q == 0)
  | .arr _ => true
  | .obj _ _ _ _ => true
  | .undefVal => false

/-- JS logical or: the left operand when truthy, else the right. -/
def jsOr (a b : JSVal) : JSVal :=
  if a.truthy then a else b

/-- Reading a record field that may be absent yields undefined. -/
def readField (f : Option JSVal) : JSVal := f.getD .undefVal

/-- `Array.isArray(v)`. -/
def JSVal.isArray : JSVal → Bool
  | .arr _ => true
  | _ => false

/-- `typeof v === "object"` (true of arrays as well, but the dispatch
tests isArray first). -/
def JSVal.isObjectType : JSVal → Bool
  | .arr _ => true
  | .obj _ _ _ _ => true
  | _ => false

/-- `item.label` on a general value: the field on records, undefined
elsewhere. -/
def propLabel : JSVal → JSVal
  | .obj l _ _ _ => readField l
  | _ => .undefVal

/-- `item.name`. -/
def propName : JSVal → JSVal
  | .obj _ nm _ _ => readField nm
  | _ => .undefVal

/-- `item.key`. -/
def propKey : JSVal → JSVal
  | .obj _ _ k _ => readField k
  | _ => .undefVal

/-- `item.value`. -/
def propValue : JSVal → JSVal
  | .obj _ _ _ v => readField v
  | _ => .undefVal

/-- The input-shape dispatch of createDataTable (lines 1937-1948): if
`data[0]` is an array the rows pass through unchanged; else if it is an
object each record projects to `[label || name || key, value]`; else the
labels argument is zipped positionally with the data values. -/
def buildTableData (labels : List String) (data : List JSVal) : List JSVal :=
  let head := data.getD 0 .undefVal
  if head.isArray then
    data
  else if head.isObjectType then
    data.map (fun item =>
      .arr [jsOr (propLabel item) (jsOr (propName item) (propKey item)),
            propValue item])
  else
    mapIdxFrom (fun i lab => JSVal.arr [.str lab, data.getD i .undefVal]) 0 labels

/-- Encoding of a logical table as the pair-rows input shape. -/
def pairsShape (rows : List (String × ℚ)) : List JSVal :=
  rows.map (fun r => .arr [.str r.1, .num r.2])

/-- Encoding of a logical table as the label-keyed-records input shape. -/
def recordsShape (rows : List (String × ℚ)) : List JSVal :=
  rows.map (fun r => .obj (some (.str r.1)) none none (some (.num r.2)))

/-- Encoding of a logical table as the data half of the parallel-arrays
input shape (the labels half being the row labels). -/
def parallelDataShape (rows : List (String × ℚ)) : List JSVal :=
  rows.map (fun r => .num r.2)

/-- The common row model the specification says all three shapes reach:
one `[label, value]` row per logical row. -/
def tableRowModel (rows : List (String × ℚ)) : List JSVal :=
  rows.map (fun r => .arr [.str r.1, .num r.2])

/-! ## Renderer dependency guards (C7) -/

/-- Outcome of a renderer call with respect to the charting dependency:
the guarded null return, a completed render, or a thrown ReferenceError
from touching the missing global. -/
inductive RenderOutcome where
  | nullResult
  | rendered
  | jsException
deriving DecidableEq, Repr

/-- Dependency guard shared by the chart renderers
(`if (!d3) { console.error("D3.js not loaded"); return null; }`),
paired with the console output it produces. -/
def d3Guard (d3Loaded : Bool) : RenderOutcome × List String :=
  if !d3Loaded then (.nullResult, ["D3.js not loaded"]) else (.rendered, [])

/-- Dependency path of createMultiSeriesBarChart (lines 1137-1141). -/
def createMultiSeriesBarChart_depPath (d3Loaded : Bool) :
    RenderOutcome × List String := d3Guard d3Loaded

/-- Dependency path of createPercentageBarChart (lines 1243-1247). -/
def createPercentageBarChart_depPath (d3Loaded : Bool) :
    RenderOutcome × List String := d3Guard d3Loaded

/-- Dependency path of createMultiColorBarChart (lines 1357-1361). -/
def createMultiColorBarChart_depPath (d3Loaded : Bool) :
    RenderOutcome × List String := d3Guard d3Loaded

/-- Dependency path of createPieChart (lines 1434-1438). -/
def createPieChart_depPath (d3Loaded : Bool) :
    RenderOutcome × List String := d3Guard d3Loaded

/-- Dependency path of createMultiScaleBarChart (lines 1521-1525). -/
def createMultiScaleBarChart_depPath (d3Loaded : Bool) :
    RenderOutcome × List String := d3Guard d3Loaded

/-- Dependency path of createComparisonBarChart (lines 1668-1672). -/
def createComparisonBarChart_depPath (d3Loaded : Bool) :
    RenderOutcome × List String := d3Guard d3Loaded

/-- Dependency path of createDoughnutChart (lines 1776-1780). -/
def createDoughnutChart_depPath (d3Loaded : Bool) :
    RenderOutcome × List String := d3Guard d3Loaded

/-- Dependency path of createDataTable (lines 1874-1885): the function has
no dependency guard; its first statement `d3.select(...)` dereferences
the missing global, so the call throws instead of returning null, and
nothing is logged by the function itself. -/
def createDataTable_depPath (d3Loaded : Bool) :
    RenderOutcome × List String :=
  if d3Loaded then (.rendered, []) else (.jsException, [])

/-! ## Shape-mismatch handling (validateChartData lines 663-673,
createMultiSeriesBarChart lines 1137-1161) -/

/-- A JS argument that may or may not be an array. -/
inductive JSArg (α : Type) where
  | array (xs : List α)
  | notArray
deriving DecidableEq

/-- validateChartData: throws unless both arguments are arrays, then
warns (without failing) when the lengths differ and returns true.  The
result is paired with the list of warnings written to the console. -/
def validateChartData (labels : JSArg String) (data : JSArg ℚ) :
    Except String (Bool × List String) :=
  match labels, data with
  | .array ls, .array ds =>
    .ok (true,
      if ls.length ≠ ds.length then
        ["Labels and data arrays have different lengths"]
      else [])
  | _, _ => .error "Labels and data must be arrays"

/-- The grouped-data construction of createMultiSeriesBarChart (lines
1153-1161) together with the console output of the call: one group per
label, each series contributing its value at that position (none models
the undefined read past the end of a shorter series).  The only console
write in the renderer is the dependency guard; no warning is emitted on
a length mismatch. -/
def createMultiSeriesBarChart_model (d3Loaded : Bool) (labels : List String)
    (datasets : List Dataset) :
    Option (List (String × List (String × Option ℚ))) × List String :=
  if !d3Loaded then
    (none, ["D3.js not loaded"])
  else
    (some (mapIdxFrom (fun i lab =>
      (lab, datasets.map (fun ds => (ds.label, ds.data.get? i)))) 0 labels),
     [])

/-! ## Builder counters and generated identifiers (C9) -/

/-- The persistent counters of the PageBuilder instance. -/
structure BuilderState where
  chartCounter : Nat
  sectionCounter : Nat
deriving DecidableEq, Repr

/-- The builder operations that touch the identifier counters.  For
createSection the first option is the caller-supplied title (its absence
triggers the default `Section ${++this.sectionCounter}`) and the second
the caller-supplied container id; createChartContainer carries its
caller-supplied container id; reset (lines 691-699) zeroes both
counters. -/
inductive BuilderOp where
  | createSection (titleArg containerIdArg : Option String)
  | createChartContainer (containerIdArg : Option String)
  | reset
deriving DecidableEq, Repr

/-- One builder call: the next state and the container id the call uses
(none for reset).  Defaults evaluate left to right exactly as in the
source: createSection increments sectionCounter only when the title
defaults, and its default containerId reads the counter after that
increment; createChartContainer increments chartCounter only when its id
defaults (line 279). -/
def stepBuilder (s : BuilderState) : BuilderOp → BuilderState × Option String
  | .createSection titleArg containerIdArg =>
    let sectionCounter :=
      if titleArg.isNone then s.sectionCounter + 1 else s.sectionCounter
    let cid := containerIdArg.getD ("section-" ++ toString sectionCounter)
    ({ s with sectionCounter := sectionCounter }, some cid)
  | .createChartContainer containerIdArg =>
    let chartCounter :=
      if containerIdArg.isNone then s.chartCounter + 1 else s.chartCounter
    let cid := containerIdArg.getD ("chart-" ++ toString chartCounter)
    ({ s with chartCounter := chartCounter }, some cid)
  | .reset => ({ chartCounter := 0, sectionCounter := 0 }, none)

/-- Running a sequence of builder calls, collecting the container ids the
calls use, in order. -/
def runBuilder (s : BuilderState) : List BuilderOp → BuilderState × List String
  | [] => (s, [])
  | op :: ops =>
    let r := stepBuilder s op
    let rest := runBuilder r.1 ops
    (rest.1, r.2.toList ++ rest.2)

/-- The chartCounter values stamped into the container ids that
createChartContainer generates when the caller supplies none (each such
id is the string "chart-" followed by this value). -/
def generatedChartNums (s : BuilderState) : List BuilderOp → List Nat
  | [] => []
  | op :: ops =>
    let s2 := (stepBuilder s op).1
    (match op with
      | .createChartContainer none => [s2.chartCounter]
      | _ => []) ++ generatedChartNums s2 ops

/-! ## Document body and report containers (C10) -/

/-- A top-level child of document.body: the report container appended by
createDocument, or anything else (pre-existing content, tooltip divs,
context menus). -/
inductive BodyNode where
  | reportContainer
  | other
deriving DecidableEq, Repr

/-- Operations that touch the document body: createDocument (lines 70-100)
sets `document.body.innerHTML = ""` and then appends the fresh report
container; the tooltip and context-menu helpers append plain divs to the
body; every other builder operation mutates inside the current container
only. -/
inductive DocOp where
  | createDocument
  | appendToBody
  | insideContainer
deriving DecidableEq, Repr

/-- Effect of one operation on the list of body children. -/
def stepDoc (body : List BodyNode) : DocOp → List BodyNode
  | .createDocument => [.reportContainer]
  | .appendToBody => body ++ [.other]
  | .insideContainer => body

/-- Running a sequence of body-touching operations. -/
def runDoc (body : List BodyNode) : List DocOp → List BodyNode
  | [] => body
  | op :: ops => runDoc (stepDoc body op) ops

/-- The number of report containers among the body children. -/
def containerCount (body : List BodyNode) : Nat :=
  (body.filter (fun n => n == BodyNode.reportContainer)).length

/-! ### Fold lemmas for jsMathMin / jsMathMax -/

theorem foldl_min_le_init (xs : List ℚ) (a : ℚ) : xs.foldl min a ≤ a := by
  induction xs generalizing a with
  | nil => simp
  | cons b bs ih =>
    calc (b :: bs).foldl min a = bs.foldl min (min a b) := rfl
    _ ≤ min a b := ih _
    _ ≤ a := min_le_left _ _

theorem init_le_foldl_max (xs : List ℚ) (a : ℚ) : a ≤ xs.foldl max a := by
  induction xs generalizing a with
  | nil => simp
  | cons b bs ih =>
    calc a ≤ max a b := le_max_left _ _
    _ ≤ bs.foldl max (max a b) := ih _
    _ = (b :: bs).foldl max a := rfl

theorem foldl_min_le_mem (xs : List ℚ) (a x : ℚ) (hx : x ∈ xs) :
    xs.foldl min a ≤ x := by
  induction xs generalizing a with
  | nil => cases hx
  | cons b bs ih =>
    rcases List.mem_cons.mp hx with rfl | h
    · exact le_trans (foldl_min_le_init bs (min a x)) (min_le_right a x)
    · exact ih _ h

theorem mem_le_foldl_max (xs : List ℚ) (a x : ℚ) (hx : x ∈ xs) :
    x ≤ xs.foldl max a := by
  induction xs generalizing a with
  | nil => cases hx
  | cons b bs ih =>
    rcases List.mem_cons.mp hx with rfl | h
    · exact le_trans (le_max_right a x) (init_le_foldl_max bs (max a x))
    · exact ih _ h

theorem jsMathMin_le {l : List ℚ} {x : ℚ} (hx : x ∈ l) : jsMathMin l ≤ x := by
  rcases l with _ | ⟨a, as⟩
  · cases hx
  · rcases List.mem_cons.mp hx with rfl | h
    · exact foldl_min_le_init as x
    · exact foldl_min_le_mem as a x h

theorem le_jsMathMax {l : List ℚ} {x : ℚ} (hx : x ∈ l) : x ≤ jsMathMax l := by
  rcases l with _ | ⟨a, as⟩
  · cases hx
  · rcases List.mem_cons.mp hx with rfl | h
    · exact init_le_foldl_max as x
    · exact mem_le_foldl_max as a x h

/-! ### Indexing lemmas for the indexed map -/

theorem mapIdxFrom_getD {α β : Type} (f : Nat → α → β) (d : α) (e : β)
    (idx j : Nat) (l : List α) (hj : j < l.length) :
    (mapIdxFrom f idx l).getD j e = f (idx + j) (l.getD j d) := by
  induction l generalizing idx j with
  | nil => simp at hj
  | cons x xs ih =>
    cases j with
    | zero => simp [mapIdxFrom]
    | succ k =>
      have hk : k < xs.length := by simpa using hj
      simp only [mapIdxFrom, List.getD_cons_succ]
      rw [ih (idx + 1) k hk]
      congr 1
      omega

theorem mem_mapIdxFrom {α β : Type} {f : Nat → α → β} {idx : Nat}
    {l : List α} {b : β} (hb : b ∈ mapIdxFrom f idx l) :
    ∃ i a, a ∈ l ∧ b = f i a := by
  induction l generalizing idx with
  | nil => cases hb
  | cons x xs ih =>
    rcases List.mem_cons.mp hb with rfl | h
    · exact ⟨idx, x, List.mem_cons_self x xs, rfl⟩
    · obtain ⟨i, a, ha, rfl⟩ := ih h
      exact ⟨i, a, List.mem_cons_of_mem x ha, rfl⟩

theorem normalizeOne_data_getD (datasets : List Dataset) (idx i : Nat)
    (ds : Dataset) (hi : i < ds.data.length) :
    (normalizeOne datasets idx ds).data.getD i 0 =
      specNormalizedValue (datasets.map (fun d => d.data.getD i 0))
        (ds.data.getD i 0) := by
  simp only [normalizeOne]
  rw [List.getD_eq_getElem _ _ (by simpa using hi)]
  simp [specNormalizedValue]

/-! ## Claim C1 -/

/-- C1: for every multi-scale chart input with datasets of equal length n,
the normalized value of series j at category position i is exactly the
per-column formula of the specification: with min and max taken over the
values at position i across all series, 50 when they coincide, value /
max * 100 when min is nonnegative, value / abs min * 100 when max is
nonpositive, and value / max(abs min, abs max) * 50 + 50 in the
mixed-sign case. -/
theorem multiScale_normalization_matches_spec (datasets : List Dataset)
    (n j i : Nat) (hlen : ∀ ds ∈ datasets, ds.data.length = n)
    (hj : j < datasets.length) (hi : i < n) :
    ((normalizeDatasets datasets).getD j dummyNormalized).data.getD i 0 =
      specNormalizedValue (datasets.map (fun ds => ds.data.getD i 0))
        ((datasets.getD j dummyDataset).data.getD i 0) := by
  rw [normalizeDatasets, mapIdxFrom_getD _ dummyDataset _ 0 j _ hj,
    Nat.zero_add]
  apply normalizeOne_data_getD
  have hmem : datasets.getD j dummyDataset ∈ datasets := by
    rw [List.getD_eq_getElem _ _ hj]
    exact List.getElem_mem hj
  rw [hlen _ hmem]
  exact hi

/-- Witness for C1: the mixed-sign example column [-10, 20] (which
normalizes to [25, 100]) and the degenerate column [7, 7] (which
normalizes to [50, 50]). -/
theorem multiScale_normalization_matches_spec_witness :
    ((∀ ds ∈ [Dataset.mk "A" [-10] none, Dataset.mk "B" [20] none],
        ds.data.length = 1) ∧ 0 < 2 ∧ 0 < 1) ∧
    (((normalizeDatasets
        [Dataset.mk "A" [-10] none, Dataset.mk "B" [20] none]).getD
          0 dummyNormalized).data.getD 0 0 =
      specNormalizedValue
        ([Dataset.mk "A" [-10] none, Dataset.mk "B" [20] none].map
          (fun ds => ds.data.getD 0 0))
        (([Dataset.mk "A" [-10] none,
            Dataset.mk "B" [20] none].getD 0 dummyDataset).data.getD 0 0)) ∧
    ((normalizeDatasets
        [Dataset.mk "A" [-10] none, Dataset.mk "B" [20] none]).map
      (fun nd => nd.data) = [[25], [100]]) ∧
    ((normalizeDatasets
        [Dataset.mk "A" [7] none, Dataset.mk "B" [7] none]).map
      (fun nd => nd.data) = [[50], [50]]) :=
  ⟨⟨by simp, by norm_num, by norm_num⟩,
    multiScale_normalization_matches_spec _ 1 0 0 (by simp) (by norm_num)
      (by norm_num),
    by norm_num [normalizeDatasets, mapIdxFrom, normalizeOne, jsMathMin,
      jsMathMax, min_def, max_def, List.range_succ],
    by norm_num [normalizeDatasets, mapIdxFrom, normalizeOne, jsMathMin,
      jsMathMax, min_def, max_def, List.range_succ]⟩

/-! ## Claim C2 -/

/-- C2 counterexample: on the all-negative column [-10, -5] the code
produces the normalized values -100 and -50, which do not lie in
[0, 100]. -/
theorem multiScale_range_counterexample :
    ((normalizeDatasets
        [Dataset.mk "A" [-10] none, Dataset.mk "B" [-5] none]).map
      (fun nd => nd.data) = [[-100], [-50]]) ∧ ¬ (0 ≤ (-100 : ℚ)) := by
  constructor
  · norm_num [normalizeDatasets, mapIdxFrom, normalizeOne, jsMathMin,
      jsMathMax, min_def, max_def, List.range_succ]
  · norm_num

/-- C2 as amended: for datasets of equal length, every normalized value
lies in [-100, 100] (the all-nonnegative, mixed-sign and degenerate
columns land in [0, 100], but a column of nonpositive values with a
strictly negative minimum lands in [-100, 0]). -/
theorem multiScale_normalized_range (datasets : List Dataset) (n : Nat)
    (hlen : ∀ ds ∈ datasets, ds.data.length = n) :
    ∀ nd ∈ normalizeDatasets datasets, ∀ v ∈ nd.data,
      -100 ≤ v ∧ v ≤ 100 := by
  intro nd hnd v hv
  obtain ⟨idx, dsj, hdsj, rfl⟩ := mem_mapIdxFrom hnd
  simp only [normalizeOne, List.mem_map, List.mem_range] at hv
  obtain ⟨i, hi, rfl⟩ := hv
  have hvmem : dsj.data.getD i 0 ∈
      datasets.map (fun ds => ds.data.getD i 0) :=
    List.mem_map_of_mem _ hdsj
  have h1 := jsMathMin_le hvmem
  have h2 := le_jsMathMax hvmem
  set column := datasets.map (fun ds => ds.data.getD i 0)
  set value := dsj.data.getD i 0
  set mn := jsMathMin column
  set mx := jsMathMax column
  split_ifs with heq hpos hneg
  · norm_num
  · -- all values nonnegative: 0 <= mn <= value <= mx, mn < mx
    have hmnmx : mn < mx := lt_of_le_of_ne (le_trans h1 h2) heq
    have hmx : 0 < mx := lt_of_le_of_lt hpos hmnmx
    have hq1 : value / mx ≤ 1 := (div_le_one hmx).mpr h2
    have hq0 : 0 ≤ value / mx := div_nonneg (le_trans hpos h1) hmx.le
    constructor <;> nlinarith
  · -- all values nonpositive: mn < mx <= 0, so mn < 0
    have hmnmx : mn < mx := lt_of_le_of_ne (le_trans h1 h2) heq
    have hmn : mn < 0 := lt_of_lt_of_le hmnmx hneg
    have habs : |mn| = -mn := abs_of_neg hmn
    have hpos2 : (0 : ℚ) < -mn := by linarith
    have hq1 : -1 ≤ value / |mn| := by
      rw [habs, le_div_iff₀ hpos2]
      linarith
    have hq0 : value / |mn| ≤ 0 := by
      rw [habs, div_le_iff₀ hpos2]
      linarith [le_trans h2 hneg]
    constructor <;> nlinarith
  · -- mixed sign: mn < 0 < mx
    have hmn : mn < 0 := lt_of_not_le hpos
    have hmx : 0 < mx := lt_of_not_le hneg
    have hub : mx ≤ max |mn| |mx| := le_trans (le_abs_self mx) (le_max_right _ _)
    have hlb : -mn ≤ max |mn| |mx| := by
      calc -mn ≤ |mn| := neg_le_abs mn
      _ ≤ max |mn| |mx| := le_max_left _ _
    have hpos2 : (0 : ℚ) < max |mn| |mx| := by
      calc (0 : ℚ) < mx := hmx
      _ ≤ max |mn| |mx| := hub
    have hq1 : value / max |mn| |mx| ≤ 1 := by
      rw [div_le_iff₀ hpos2]
      calc value ≤ mx := h2
      _ ≤ max |mn| |mx| := hub
      _ = 1 * max |mn| |mx| := by ring
    have hq0 : -1 ≤ value / max |mn| |mx| := by
      rw [le_div_iff₀ hpos2]
      calc (-1 : ℚ) * max |mn| |mx| = -(max |mn| |mx|) := by ring
      _ ≤ mn := by linarith
      _ ≤ value := h1
    constructor <;> nlinarith

/-- Witness for the amended C2 at a concrete three-column input mixing all
sign regimes. -/
theorem multiScale_normalized_range_witness :
    (∀ ds ∈ [Dataset.mk "A" [-10, 7, -3] none,
        Dataset.mk "B" [20, 7, -9] none], ds.data.length = 3) ∧
    (∀ nd ∈ normalizeDatasets [Dataset.mk "A" [-10, 7, -3] none,
        Dataset.mk "B" [20, 7, -9] none], ∀ v ∈ nd.data,
      -100 ≤ v ∧ v ≤ 100) :=
  ⟨by simp,
    multiScale_normalized_range _ 3 (by simp)⟩

/-! ## Claim C3 -/

theorem mapIdxFrom_originalData (datasets : List Dataset) (idx : Nat)
    (ds : List Dataset) :
    (mapIdxFrom (normalizeOne datasets) idx ds).map
      (fun nd => nd.originalData) = ds.map (fun d => d.data) := by
  induction ds generalizing idx with
  | nil => rfl
  | cons d rest ih => simp [mapIdxFrom, normalizeOne, ih]

/-- C3: normalization retains the caller-supplied values unmodified: the
originalData field of each normalized dataset is exactly the data field
of the corresponding input dataset. -/
theorem multiScale_originalData_roundTrip (datasets : List Dataset) :
    (normalizeDatasets datasets).map (fun nd => nd.originalData) =
      datasets.map (fun ds => ds.data) :=
  mapIdxFrom_originalData datasets 0 datasets

/-! ## Claim C4 -/

/-- C4 counterexample: in the pie data [4, 4] each slice holds a 50%
share, well above the 5% threshold, yet the code suppresses both labels,
because line 1485 compares the raw slice value (4) against 5 rather than
the share of the total. -/
theorem pie_label_share_counterexample :
    pieSliceLabels [4, 4] = ["", ""] ∧ ¬ ((4 : ℚ) / (4 + 4) * 100 < 5) := by
  constructor
  · norm_num [pieSliceLabels, pieSliceLabel]
  · norm_num

/-- C4 as amended: a pie slice label is suppressed exactly when the raw
slice value is at most 5 — the code treats the value itself as a
percentage and never consults the total of the slice values. -/
theorem pie_label_suppressed_iff_le_five (v : ℚ) :
    pieSliceLabel v = "" ↔ v ≤ 5 := by
  unfold pieSliceLabel
  by_cases h : 5 < v
  · rw [if_pos h]
    constructor
    · intro hcontra
      have hlen := congrArg String.length hcontra
      rw [String.length_append] at hlen
      have h1 : String.length "%" = 1 := rfl
      have h0 : String.length "" = 0 := rfl
      omega
    · intro hle
      exact absurd h (not_lt.mpr hle)
  · rw [if_neg h]
    simpa using not_lt.mp h

/-- Witness for the amended C4 at the suppressed slice value 4. -/
theorem pie_label_suppressed_iff_le_five_witness :
    pieSliceLabel 4 = "" ↔ (4 : ℚ) ≤ 5 :=
  pie_label_suppressed_iff_le_five 4

/-! ## Claim C5 -/

theorem mapIdxFrom_length {α β : Type} (f : Nat → α → β) (idx : Nat)
    (l : List α) : (mapIdxFrom f idx l).length = l.length := by
  induction l generalizing idx with
  | nil => rfl
  | cons x xs ih => simp [mapIdxFrom, ih]

theorem mapIdxFrom_getElem {α β : Type} (f : Nat → α → β) (d : α) (e : β)
    (idx j : Nat) (l : List α) (hj : j < l.length)
    (h2 : j < (mapIdxFrom f idx l).length) :
    (mapIdxFrom f idx l)[j] = f (idx + j) (l.getD j d) := by
  rw [← List.getD_eq_getElem _ e h2, mapIdxFrom_getD f d e idx j l hj]

/-- C5: the three accepted input shapes of createDataTable describing the
same logical table — parallel labels/data arrays, pair rows, and
label-keyed records — are all normalized to the same row model, one
[label, value] row per logical row (labels being nonempty strings, as
the record branch selects the label field by JS truthiness). -/
theorem table_input_shapes_equivalent (rows : List (String × ℚ))
    (hlab : ∀ r ∈ rows, r.1 ≠ "") :
    buildTableData (rows.map Prod.fst) (pairsShape rows) =
        tableRowModel rows ∧
    buildTableData (rows.map Prod.fst) (recordsShape rows) =
        tableRowModel rows ∧
    buildTableData (rows.map Prod.fst) (parallelDataShape rows) =
        tableRowModel rows := by
  refine ⟨?_, ?_, ?_⟩
  · cases rows with
    | nil => rfl
    | cons r rs => rfl
  · cases rows with
    | nil => rfl
    | cons r rs =>
      have hred : buildTableData ((r :: rs).map Prod.fst)
          (recordsShape (r :: rs)) =
          (recordsShape (r :: rs)).map (fun item =>
            .arr [jsOr (propLabel item) (jsOr (propName item) (propKey item)),
                  propValue item]) := rfl
      rw [hred, recordsShape, tableRowModel, List.map_map]
      apply List.map_congr_left
      intro a ha
      have hne : a.1 ≠ "" := hlab a ha
      simp [jsOr, JSVal.truthy, readField, propLabel, propName, propKey,
        propValue, hne]
  · cases rows with
    | nil => rfl
    | cons r rs =>
      have hred : buildTableData ((r :: rs).map Prod.fst)
          (parallelDataShape (r :: rs)) =
          mapIdxFrom (fun i lab =>
            JSVal.arr [.str lab, (parallelDataShape (r :: rs)).getD i .undefVal])
            0 ((r :: rs).map Prod.fst) := rfl
      rw [hred]
      apply List.ext_getElem
      · rw [mapIdxFrom_length, List.length_map]
        simp [tableRowModel]
      · intro j h1 h2
        have hjr : j < (r :: rs).length := by
          rw [mapIdxFrom_length, List.length_map] at h1
          exact h1
        rw [mapIdxFrom_getElem _ "" JSVal.undefVal 0 j _
            (by rw [List.length_map]; exact hjr) h1, Nat.zero_add]
        rw [List.getD_eq_getElem _ _ (by rw [List.length_map]; exact hjr)]
        rw [List.getD_eq_getElem _ _
            (by simp only [parallelDataShape, List.length_map]; exact hjr)]
        simp only [parallelDataShape, tableRowModel, List.getElem_map]

/-- Witness for C5 at the two-row table [("A", 1), ("B", 1250)]. -/
theorem table_input_shapes_equivalent_witness :
    (∀ r ∈ [("A", (1 : ℚ)), ("B", 1250)], r.1 ≠ "") ∧
    (buildTableData ([("A", (1 : ℚ)), ("B", 1250)].map Prod.fst)
        (pairsShape [("A", (1 : ℚ)), ("B", 1250)]) =
        tableRowModel [("A", (1 : ℚ)), ("B", 1250)] ∧
      buildTableData ([("A", (1 : ℚ)), ("B", 1250)].map Prod.fst)
        (recordsShape [("A", (1 : ℚ)), ("B", 1250)]) =
        tableRowModel [("A", (1 : ℚ)), ("B", 1250)] ∧
      buildTableData ([("A", (1 : ℚ)), ("B", 1250)].map Prod.fst)
        (parallelDataShape [("A", (1 : ℚ)), ("B", 1250)]) =
        tableRowModel [("A", (1 : ℚ)), ("B", 1250)]) :=
  ⟨by simp, table_input_shapes_equivalent _ (by simp)⟩

/-! ## Claim C6 -/

/-- C6: getColors in palette mode returns exactly N colors, the fixed
ordered 15-color palette cycled by index modulo 15, and in gender mode
exactly the two fixed colors (first category then second) regardless of
N; as a total function of count and mode it is deterministic across
repeated calls and fails on no input. -/
theorem getColors_contract (n : Nat) :
    (getColors n "palette").length = n ∧
    (∀ i, i < n → (getColors n "palette").getD i "" =
      CHART_COLORS_palette.getD (i % 15) "") ∧
    getColors n "gender" =
      [CHART_COLORS_gender_male, CHART_COLORS_gender_female] := by
  refine ⟨by simp [getColors], ?_, by rfl⟩
  intro i hi
  simp only [getColors]
  rw [if_neg (by decide)]
  rw [List.getD_eq_getElem _ _ (by simpa using hi)]
  simp only [List.getElem_map, List.getElem_range]
  have h15 : CHART_COLORS_palette.length = 15 := rfl
  rw [h15]

/-- Witness for C6 at count 17, showing the cycling wraps: color 16 is the
second palette entry again. -/
theorem getColors_contract_witness :
    ((getColors 17 "palette").length = 17 ∧
      (∀ i, i < 17 → (getColors 17 "palette").getD i "" =
        CHART_COLORS_palette.getD (i % 15) "") ∧
      getColors 17 "gender" =
        [CHART_COLORS_gender_male, CHART_COLORS_gender_female]) ∧
    (getColors 17 "palette").getD 16 "" = "#2ecc71" :=
  ⟨getColors_contract 17, by rfl⟩

/-! ## Claim C7 -/

/-- C7 counterexample: with the charting dependency unavailable, the table
renderer does not return a null result: having no dependency guard, its
first d3.select call throws instead. -/
theorem table_missing_dep_counterexample :
    (createDataTable_depPath false).1 = RenderOutcome.jsException ∧
    RenderOutcome.jsException ≠ RenderOutcome.nullResult := by
  exact ⟨rfl, by decide⟩

/-- C7 as amended: with the dependency unavailable, each of the seven
chart renderers logs the error and returns a null result without drawing,
but the table renderer, which has no guard, throws instead (and logs
nothing itself). -/
theorem renderers_missing_dep_amended :
    createMultiSeriesBarChart_depPath false =
      (RenderOutcome.nullResult, ["D3.js not loaded"]) ∧
    createPercentageBarChart_depPath false =
      (RenderOutcome.nullResult, ["D3.js not loaded"]) ∧
    createMultiColorBarChart_depPath false =
      (RenderOutcome.nullResult, ["D3.js not loaded"]) ∧
    createPieChart_depPath false =
      (RenderOutcome.nullResult, ["D3.js not loaded"]) ∧
    createMultiScaleBarChart_depPath false =
      (RenderOutcome.nullResult, ["D3.js not loaded"]) ∧
    createComparisonBarChart_depPath false =
      (RenderOutcome.nullResult, ["D3.js not loaded"]) ∧
    createDoughnutChart_depPath false =
      (RenderOutcome.nullResult, ["D3.js not loaded"]) ∧
    createDataTable_depPath false = (RenderOutcome.jsException, []) :=
  ⟨rfl, rfl, rfl, rfl, rfl, rfl, rfl, rfl⟩

/-! ## Claim C8 -/

/-- C8 counterexample: rendering a mismatched input (two labels, one
series of length one) with the dependency available emits no console
warning at all: the renderer proceeds silently, and the warning text the
specification describes lives only in validateChartData, which no render
path invokes. -/
theorem mismatch_no_warning_counterexample :
    ((["A", "B"] : List String).length ≠ [(1 : ℚ)].length) ∧
    (createMultiSeriesBarChart_model true ["A", "B"]
        [Dataset.mk "S" [1] none]).2 = [] :=
  ⟨by decide, rfl⟩

/-- C8 as amended: the helper validateChartData, when invoked on arrays of
differing lengths, logs the mismatch warning and still returns true (it
never throws on array inputs), while the renderer itself proceeds on any
mismatch without error and without logging, rendering one group per
label with shorter series contributing no value (undefined) at the extra
positions; validateChartData is not part of the render path. -/
theorem mismatch_tolerated (ls : List String) (ds : List ℚ)
    (hne : ls.length ≠ ds.length) (labels : List String)
    (datasets : List Dataset) :
    validateChartData (.array ls) (.array ds) =
      .ok (true, ["Labels and data arrays have different lengths"]) ∧
    (createMultiSeriesBarChart_model true labels datasets).2 = [] ∧
    ∃ groups, (createMultiSeriesBarChart_model true labels datasets).1 =
      some groups ∧ groups.length = labels.length := by
  refine ⟨by simp [validateChartData, hne], rfl, ?_⟩
  exact ⟨_, rfl, mapIdxFrom_length _ 0 labels⟩

/-- Witness for the amended C8 at the mismatched two-label one-value
input. -/
theorem mismatch_tolerated_witness :
    ((["A", "B"] : List String).length ≠ [(1 : ℚ)].length) ∧
    (validateChartData (.array ["A", "B"]) (.array [(1 : ℚ)]) =
      .ok (true, ["Labels and data arrays have different lengths"]) ∧
    (createMultiSeriesBarChart_model true ["A", "B"]
        [Dataset.mk "S" [1] none]).2 = [] ∧
    ∃ groups, (createMultiSeriesBarChart_model true ["A", "B"]
        [Dataset.mk "S" [1] none]).1 = some groups ∧
      groups.length = (["A", "B"] : List String).length) :=
  ⟨by decide, mismatch_tolerated ["A", "B"] [(1 : ℚ)] (by decide) _ _⟩

/-! ## Claim C9 -/

/-- C9 counterexample: two consecutive createSection calls with explicit
titles and defaulted ids, from a fresh builder, both use the container id
"section-0": the section counter advances only when the title argument
defaults, so generated identifiers repeat over the builder lifetime. -/
theorem builder_duplicate_id_counterexample :
    (runBuilder { chartCounter := 0, sectionCounter := 0 }
      [.createSection (some "A") none, .createSection (some "B") none]).2 =
      ["section-0", "section-0"] := rfl

theorem stepBuilder_counters_mono (s : BuilderState) (op : BuilderOp)
    (h : op ≠ BuilderOp.reset) :
    s.chartCounter ≤ (stepBuilder s op).1.chartCounter ∧
    s.sectionCounter ≤ (stepBuilder s op).1.sectionCounter := by
  cases op with
  | createSection t c =>
    constructor <;> simp only [stepBuilder] <;> (try split) <;> omega
  | createChartContainer c =>
    constructor <;> simp only [stepBuilder] <;> (try split) <;> omega
  | reset => exact absurd rfl h

theorem generatedChartNums_lt (s : BuilderState) (ops : List BuilderOp)
    (hnr : BuilderOp.reset ∉ ops) :
    ∀ x ∈ generatedChartNums s ops, s.chartCounter < x := by
  induction ops generalizing s with
  | nil => intro x hx; cases hx
  | cons op rest ih =>
    intro x hx
    have hop : op ≠ BuilderOp.reset := fun h =>
      hnr (h ▸ List.mem_cons_self _ _)
    have hrest : BuilderOp.reset ∉ rest := fun h =>
      hnr (List.mem_cons_of_mem _ h)
    have hmono := (stepBuilder_counters_mono s op hop).1
    simp only [generatedChartNums] at hx
    rcases List.mem_append.mp hx with h1 | h2
    · cases op with
      | createChartContainer cid =>
        cases cid with
        | none =>
          simp only [List.mem_singleton] at h1
          subst h1
          simp only [stepBuilder, Option.isNone_none, if_pos]
          omega
        | some c => simp at h1
      | createSection t c => simp at h1
      | reset => exact absurd rfl hop
    · exact lt_of_le_of_lt hmono (ih _ hrest x h2)

theorem generatedChartNums_pairwise_lt (s : BuilderState)
    (ops : List BuilderOp) (hnr : BuilderOp.reset ∉ ops) :
    (generatedChartNums s ops).Pairwise (· < ·) := by
  induction ops generalizing s with
  | nil => exact List.Pairwise.nil
  | cons op rest ih =>
    have hop : op ≠ BuilderOp.reset := fun h =>
      hnr (h ▸ List.mem_cons_self _ _)
    have hrest : BuilderOp.reset ∉ rest := fun h =>
      hnr (List.mem_cons_of_mem _ h)
    simp only [generatedChartNums]
    apply List.pairwise_append.mpr
    refine ⟨?_, ih _ hrest, ?_⟩
    · cases op with
      | createChartContainer cid =>
        cases cid with
        | none => simp
        | some c => simp
      | createSection t c => simp
      | reset => exact absurd rfl hop
    · intro x hx y hy
      cases op with
      | createChartContainer cid =>
        cases cid with
        | none =>
          simp only [List.mem_singleton] at hx
          subst hx
          exact generatedChartNums_lt _ _ hrest y hy
        | some c => simp at hx
      | createSection t c => simp at hx
      | reset => exact absurd rfl hop

theorem runBuilder_counters_mono (s : BuilderState) (ops : List BuilderOp)
    (hnr : BuilderOp.reset ∉ ops) :
    s.chartCounter ≤ (runBuilder s ops).1.chartCounter ∧
    s.sectionCounter ≤ (runBuilder s ops).1.sectionCounter := by
  induction ops generalizing s with
  | nil => exact ⟨le_refl _, le_refl _⟩
  | cons op rest ih =>
    have hop : op ≠ BuilderOp.reset := fun h =>
      hnr (h ▸ List.mem_cons_self _ _)
    have hrest : BuilderOp.reset ∉ rest := fun h =>
      hnr (List.mem_cons_of_mem _ h)
    have h1 := stepBuilder_counters_mono s op hop
    have h2 := ih ((stepBuilder s op).1) hrest
    exact ⟨le_trans h1.1 h2.1, le_trans h1.2 h2.2⟩

/-- C9 as amended: in any run free of reset, both counters never decrease;
the chart-container ids generated when the caller supplies none are the
string "chart-" followed by the freshly incremented chartCounter, and
the counter values stamped into those ids are pairwise distinct, so
those generated chart ids never repeat between resets.  (What fails in
the original claim: reset restarts both counters at zero, and
createSection leaves sectionCounter untouched whenever a title is
supplied, so generated section ids may repeat.) -/
theorem builder_counters_amended (s : BuilderState) (ops : List BuilderOp)
    (hnr : BuilderOp.reset ∉ ops) :
    (s.chartCounter ≤ (runBuilder s ops).1.chartCounter ∧
      s.sectionCounter ≤ (runBuilder s ops).1.sectionCounter) ∧
    (generatedChartNums s ops).Pairwise (· ≠ ·) ∧
    (stepBuilder s (.createChartContainer none)).2 =
      some ("chart-" ++ toString (s.chartCounter + 1)) := by
  refine ⟨runBuilder_counters_mono s ops hnr, ?_, rfl⟩
  exact (generatedChartNums_pairwise_lt s ops hnr).imp Nat.ne_of_lt

/-- Witness for the amended C9 on a reset-free run with two generated
chart ids and one titled section in between. -/
theorem builder_counters_amended_witness :
    (BuilderOp.reset ∉ [BuilderOp.createChartContainer none,
      BuilderOp.createSection (some "T") none,
      BuilderOp.createChartContainer none]) ∧
    ((({ chartCounter := 0, sectionCounter := 0 } : BuilderState).chartCounter ≤
        (runBuilder { chartCounter := 0, sectionCounter := 0 }
          [BuilderOp.createChartContainer none,
            BuilderOp.createSection (some "T") none,
            BuilderOp.createChartContainer none]).1.chartCounter ∧
      ({ chartCounter := 0, sectionCounter := 0 } : BuilderState).sectionCounter ≤
        (runBuilder { chartCounter := 0, sectionCounter := 0 }
          [BuilderOp.createChartContainer none,
            BuilderOp.createSection (some "T") none,
            BuilderOp.createChartContainer none]).1.sectionCounter) ∧
    (generatedChartNums { chartCounter := 0, sectionCounter := 0 }
      [BuilderOp.createChartContainer none,
        BuilderOp.createSection (some "T") none,
        BuilderOp.createChartContainer none]).Pairwise (· ≠ ·) ∧
    (stepBuilder { chartCounter := 0, sectionCounter := 0 }
      (.createChartContainer none)).2 = some ("chart-" ++ toString (0 + 1))) ∧
    (generatedChartNums { chartCounter := 0, sectionCounter := 0 }
      [BuilderOp.createChartContainer none,
        BuilderOp.createSection (some "T") none,
        BuilderOp.createChartContainer none] = [1, 2]) :=
  ⟨by decide, builder_counters_amended _ _ (by decide), rfl⟩

/-! ## Claim C10 -/

theorem stepDoc_count_le (body : List BodyNode) (op : DocOp)
    (h : containerCount body ≤ 1) :
    containerCount (stepDoc body op) ≤ 1 := by
  cases op with
  | createDocument => simp [stepDoc, containerCount]
  | appendToBody =>
    simpa [stepDoc, containerCount, List.filter_append] using h
  | insideContainer => exact h

theorem runDoc_count_le (body : List BodyNode) (ops : List DocOp)
    (h : containerCount body ≤ 1) :
    containerCount (runDoc body ops) ≤ 1 := by
  induction ops generalizing body with
  | nil => exact h
  | cons op rest ih => exact ih _ (stepDoc_count_le body op h)

/-- C10: createDocument unconditionally replaces the entire body content
with the single fresh report container, destroying whatever was there;
consequently, starting from any page holding no library-built container,
every sequence of body-touching operations leaves at most one report
container in the document. -/
theorem createDocument_frame (body : List BodyNode) (ops : List DocOp)
    (h0 : containerCount body = 0) :
    stepDoc body DocOp.createDocument = [BodyNode.reportContainer] ∧
    containerCount (runDoc body ops) ≤ 1 :=
  ⟨rfl, runDoc_count_le body ops (by omega)⟩

/-- Witness for C10: a page with stray content, on which a report is built
twice with a tooltip appended in between. -/
theorem createDocument_frame_witness :
    (containerCount [BodyNode.other, BodyNode.other] = 0) ∧
    (stepDoc [BodyNode.other, BodyNode.other] DocOp.createDocument =
      [BodyNode.reportContainer] ∧
    containerCount (runDoc [BodyNode.other, BodyNode.other]
      [DocOp.createDocument, DocOp.appendToBody,
        DocOp.createDocument]) ≤ 1) :=
  ⟨by decide, createDocument_frame _ _ (by decide)⟩
